import Mathlib

/-!
Verification development for the DreamAi retrieval-augmented generation
pipeline.  The client component `Search` (its functions `handleSearch`,
`generateAnswer`, `generatePrompt`) and the `/embedding` route handler are
embedded shallowly: strings are lists of characters, network calls are
parameters or recorded effects, and React state updates become explicit
state passing.
-/

namespace DreamAi

/-- JavaScript whitespace class `\s`, restricted to the characters that can
occur in this code base's strings: space, tab, line feed, carriage return,
vertical tab, form feed, no-break space. -/
def isJsWs (c : Char) : Bool :=
  c = ' ' || c = '\t' || c = '\n' || c = '\r' || c = '\x0b' || c = '\x0c' || c = ' '

/-- `String.prototype.trim`: drop JavaScript whitespace at both ends. -/
def jsTrim (l : List Char) : List Char :=
  ((l.dropWhile isJsWs).reverse.dropWhile isJsWs).reverse

/-- Core of the `oneLine` template tag of common-tags: the replacement
`/(?:\n(?:\s*))+/g -> " "` , i.e. every maximal whitespace run beginning at a
line feed collapses to a single space.  The boolean is true while inside such
a run. -/
def oneLineAux : Bool → List Char → List Char
  | _, [] => []
  | skipping, c :: rest =>
    if skipping && isJsWs c then oneLineAux true rest
    else if c = '\n' then ' ' :: oneLineAux true rest
    else c :: oneLineAux false rest

/-- The `oneLine` tag of common-tags: collapse newline runs, then trim. -/
def oneLineTag (l : List Char) : List Char :=
  jsTrim (oneLineAux false l)

/-- Split at line feeds; lines delimited by LF only (the other JavaScript
line terminators do not occur in the template, and the result is used only
through `minIndent`, which the template pins to zero). -/
def splitLines : List Char → List (List Char)
  | [] => [[]]
  | c :: rest =>
    if c = '\n' then [] :: splitLines rest
    else
      match splitLines rest with
      | [] => [[c]]
      | l :: ls => (c :: l) :: ls

/-- Inverse of `splitLines`: interleave a line feed between lines. -/
def joinLines : List (List Char) → List Char
  | [] => []
  | [l] => l
  | l :: ls => l ++ '\n' :: joinLines ls

/-- Whitespace other than a line feed, the class `[^\S\n]` of
`stripIndentTransformer`. -/
def isLineWs (c : Char) : Bool := isJsWs c && !(c = '\n')

/-- One line's match of `/^[^\S\n]*(?=\S)/`: the length of the leading
whitespace when the line has a non-whitespace character, else no match. -/
def lineIndent (l : List Char) : Option Nat :=
  if (l.dropWhile isLineWs).isEmpty then none
  else some (l.takeWhile isLineWs).length

/-- Minimum of the per-line indents, `none` when no line matched. -/
def minIndent : List (List Char) → Option Nat
  | [] => none
  | l :: ls =>
    match lineIndent l, minIndent ls with
    | none, m => m
    | some n, none => some n
    | some n, some m => some (min n m)

/-- Effect of `/^.{n}/gm` on one line: remove the first `n` characters when
the line has at least `n` of them, otherwise leave the line alone. -/
def dropIndent (n : Nat) (l : List Char) : List Char :=
  if n ≤ l.length then l.drop n else l

/-- `stripIndentTransformer('initial')` of common-tags: when the minimal line
indent is positive, remove that many characters from the head of every long
enough line; a zero or absent minimum leaves the string unchanged. -/
def stripIndentTransform (l : List Char) : List Char :=
  match minIndent (splitLines l) with
  | none => l
  | some 0 => l
  | some (n + 1) => joinLines ((splitLines l).map (dropIndent (n + 1)))

/-- The `stripIndent` tag of common-tags: strip the common indent, then
trim. -/
def stripIndentTag (l : List Char) : List Char :=
  jsTrim (stripIndentTransform l)

/-- The inner template handed to `oneLine` in `generatePrompt`, byte for
byte (note the trailing space after `format.` and the final tab). -/
def preambleRaw : List Char :=
  ("\n    You are a very enthusiastic Dream interpreting expert who loves\n    to help people! Given the following sections from the Dream\n    documentation or make up something people can relate, answer the question using only that information,\n    outputted in markdown format. \n\t").data

/-- The persona preamble as the `oneLine` tag produces it. -/
def preamble : List Char := oneLineTag preambleRaw

/-- Template text between the preamble and the interpolated context. -/
def ctxHeader : List Char := ("\n\n    Context sections:\n    ").data

/-- Template text between the interpolated context and the question. -/
def questionHeader : List Char := ("\n\n    Question: \"\"\"\n    ").data

/-- Template text after the interpolated question. -/
def promptTail : List Char :=
  ("\n    \"\"\"\n\n    Answer as markdown (including related code snippets if available):\n  ").data

/-- `promptTail` with its trailing whitespace removed. -/
def promptTailTrimmed : List Char :=
  ("\n    \"\"\"\n\n    Answer as markdown (including related code snippets if available):").data

/-- The outer template literal of `generatePrompt` with both interpolations
substituted, before the `stripIndent` tag acts. -/
def promptRaw (contextText searchText : List Char) : List Char :=
  preamble ++ ctxHeader ++ contextText ++ questionHeader ++ searchText ++ promptTail

/-- `generatePrompt` of the `Search` component: the tagged template
`stripIndent` applied to the preamble, context and question. -/
def generatePrompt (contextText searchText : List Char) : List Char :=
  stripIndentTag (promptRaw contextText searchText)

/-- One row returned by the `match_documents` remote procedure call: its
`content` text and its `token` count. -/
structure MatchDoc where
  content : List Char
  token : Nat
deriving DecidableEq

/-- The separator `"\n--\n"` appended after each included document. -/
def sep : List Char := ('\n' :: '-' :: '-' :: '\n' :: [])

/-- The context assembly loop of `handleSearch`, carried accumulators made
explicit: `tokenCount += document.token` happens before the
`tokenCount > 1500` test, and the loop breaks without undoing the
addition. -/
def assembleLoop (budget : Nat) : List MatchDoc → Nat → List Char → Nat × List Char
  | [], tokenCount, contextText => (tokenCount, contextText)
  | d :: rest, tokenCount, contextText =>
    if budget < tokenCount + d.token then (tokenCount + d.token, contextText)
    else assembleLoop budget rest (tokenCount + d.token)
      (contextText ++ (jsTrim d.content ++ sep))

/-- Context assembly as `handleSearch` runs it, from `tokenCount = 0` and
`contextText = ""`; a `null` result list from the remote call iterates
zero times and is therefore modelled by `[]`. -/
def assemble (documents : List MatchDoc) (budget : Nat) : Nat × List Char :=
  assembleLoop budget documents 0 []

/-- The documents whose text the loop actually appends: the loop admits a
document exactly when the running total stays within budget after adding
its token count. -/
def includedDocs (budget : Nat) : List MatchDoc → Nat → List MatchDoc
  | [], _ => []
  | d :: rest, tokenCount =>
    if budget < tokenCount + d.token then []
    else d :: includedDocs budget rest (tokenCount + d.token)

/-- Concatenation of the rendered segments of a document list. -/
def segJoin (docs : List MatchDoc) : List Char :=
  (docs.map (fun d => jsTrim d.content ++ sep)).flatten

/-- Sum of the token counts of a document list. -/
def tokenSum (docs : List MatchDoc) : Nat :=
  (docs.map MatchDoc.token).sum

/-- The visible chat state owned by the `Search` component. -/
structure UiState where
  questions : List (List Char)
  answers : List (List Char)
deriving DecidableEq

/-- One turn's external responses: the submitted text, the `/embedding`
response status, the rows the similarity search returns, and the `/chat`
response status and payload. -/
structure TurnInputs where
  searchText : List Char
  embedStatus : Nat
  documents : List MatchDoc
  chatStatus : Nat
  chatChoices : List Char
deriving DecidableEq

/-- The observable outcome of one `handleSearch` run: the final chat state,
input field and loading flag, which backend calls were issued, the prompt
sent to generation, and how many toast notices were raised. -/
structure TurnResult where
  questions : List (List Char)
  answers : List (List Char)
  inputValue : List Char
  loading : Bool
  embedCalled : Bool
  embedTextSent : Option (List Char)
  searchCalled : Bool
  generateCalled : Bool
  promptSent : Option (List Char)
  toasts : Nat
deriving DecidableEq

/-- `searchText.replace(/\n/g, " ")` as sent to the embedding route. -/
def replaceNewlines (l : List Char) : List Char :=
  l.map fun c => if c = '\n' then ' ' else c

/-- `handleSearch` of the `Search` component as a pure function of the
previous state and the turn's external responses.  Branches mirror the
source: the truthiness test `searchText && searchText.trim()`, the embed
status test, the assembly loop with budget 1500, `generatePrompt`, and
`generateAnswer`'s status test.  `setLoading(true)` at entry and
`setLoading(false)` at exit leave `loading = false` in every outcome. -/
def handleSearch (st : UiState) (inp : TurnInputs) : TurnResult :=
  if inp.searchText ≠ [] ∧ jsTrim inp.searchText ≠ [] then
    let questions' := st.questions ++ [inp.searchText]
    if inp.embedStatus ≠ 200 then
      { questions := questions', answers := st.answers, inputValue := [], loading := false,
        embedCalled := true, embedTextSent := some (replaceNewlines inp.searchText),
        searchCalled := false, generateCalled := false, promptSent := none, toasts := 1 }
    else
      let contextText := (assemble inp.documents 1500).2
      let prompt := generatePrompt contextText inp.searchText
      if inp.chatStatus ≠ 200 then
        { questions := questions', answers := st.answers, inputValue := [], loading := false,
          embedCalled := true, embedTextSent := some (replaceNewlines inp.searchText),
          searchCalled := true, generateCalled := true, promptSent := some prompt, toasts := 1 }
      else
        { questions := questions', answers := st.answers ++ [inp.chatChoices],
          inputValue := [], loading := false,
          embedCalled := true, embedTextSent := some (replaceNewlines inp.searchText),
          searchCalled := true, generateCalled := true, promptSent := some prompt, toasts := 0 }
  else
    { questions := st.questions, answers := st.answers, inputValue := [], loading := false,
      embedCalled := false, embedTextSent := none, searchCalled := false,
      generateCalled := false, promptSent := none, toasts := 0 }

/-- Model name the `/embedding` route hands to `countTokens`. -/
def geminiProName : List Char := ("gemini-pro").data

/-- Model name the `/embedding` route hands to `embedContent`. -/
def embeddingModelName : List Char := ("embedding-001").data

/-- Outcome of the `/embedding` POST handler: 403, 422, 500, or 200 with the
token count and vector, each tagged with the model that produced it. -/
inductive EmbedOutcome where
  | unauthorized
  | invalidRequest
  | failure
  | success (token : Nat) (tokenModel : List Char) (embedding : List Int) (embedModel : List Char)
deriving DecidableEq

/-- The `/embedding` POST handler: reject without a user (403) or without a
truthy `text` field (422); otherwise count tokens with the `gemini-pro`
model and embed with the `embedding-001` model, answering 500 when either
backend call throws (modelled by `none`). -/
def embeddingPOST (hasUser : Bool) (text : Option (List Char))
    (countTokens : List Char → List Char → Option Nat)
    (embedContent : List Char → List Char → Option (List Int)) : EmbedOutcome :=
  if !hasUser then .unauthorized
  else
    match text with
    | none => .invalidRequest
    | some t =>
      if t = [] then .invalidRequest
      else
        match countTokens geminiProName t, embedContent embeddingModelName t with
        | some token, some vec => .success token geminiProName vec embeddingModelName
        | _, _ => .failure

/-! Helper lemmas about the assembly loop. -/

/-- The text the loop builds is the previous text followed by the rendered
segments of the documents it admits. -/
theorem assembleLoop_snd (budget : Nat) :
    ∀ (docs : List MatchDoc) (acc : Nat) (ctx : List Char),
      (assembleLoop budget docs acc ctx).2 = ctx ++ segJoin (includedDocs budget docs acc) := by
  intro docs
  induction docs with
  | nil => intro acc ctx; simp [assembleLoop, includedDocs, segJoin]
  | cons d rest ih =>
    intro acc ctx
    by_cases h : budget < acc + d.token
    · simp [assembleLoop, includedDocs, h, segJoin]
    · simp only [assembleLoop, includedDocs, h, if_false]
      rw [ih]
      simp [segJoin]

/-- The admitted documents form a leading block of the ranked list. -/
theorem includedDocs_leading (budget : Nat) :
    ∀ (docs : List MatchDoc) (acc : Nat),
      ∃ suffix, includedDocs budget docs acc ++ suffix = docs := by
  intro docs
  induction docs with
  | nil => intro acc; exact ⟨[], rfl⟩
  | cons d rest ih =>
    intro acc
    by_cases h : budget < acc + d.token
    · exact ⟨d :: rest, by simp [includedDocs, h]⟩
    · obtain ⟨suffix, hs⟩ := ih (acc + d.token)
      exact ⟨suffix, by simp [includedDocs, h, hs]⟩

/-- Starting within budget, the admitted documents' token counts keep the
running total within budget. -/
theorem includedDocs_tokenSum_le (budget : Nat) :
    ∀ (docs : List MatchDoc) (acc : Nat), acc ≤ budget →
      acc + tokenSum (includedDocs budget docs acc) ≤ budget := by
  intro docs
  induction docs with
  | nil => intro acc hacc; simpa [includedDocs, tokenSum] using hacc
  | cons d rest ih =>
    intro acc hacc
    by_cases h : budget < acc + d.token
    · simpa [includedDocs, h, tokenSum] using hacc
    · have hin := ih (acc + d.token) (Nat.le_of_not_lt h)
      simp only [includedDocs, h, if_false, tokenSum, List.map_cons, List.sum_cons] at *
      omega

/-- Claim C1, counterexample: for the single match with 2000 tokens and the
deployed budget 1500, the loop adds the token count before testing the
budget, so the final accumulator is 2000, exceeding the budget. -/
theorem tokenCount_exceeds_budget_at_2000 :
    ¬ ((assemble (⟨('x' :: []), 2000⟩ :: []) 1500).1 ≤ 1500) := by decide

/-- Claim C1 as amended: the final accumulator can exceed the budget (it
still counts the match that triggered the stop), but the token counts of
the matches whose text is actually included in the assembled context sum to
at most the budget, and the assembled text consists exactly of those
included matches' rendered segments. -/
theorem included_tokens_within_budget (docs : List MatchDoc) (B : Nat) :
    tokenSum (includedDocs B docs 0) ≤ B ∧
    (assemble docs B).2 = segJoin (includedDocs B docs 0) := by
  constructor
  · have h := includedDocs_tokenSum_le B docs 0 (Nat.zero_le B)
    omega
  · have h := assembleLoop_snd B docs 0 []
    simpa [assemble] using h

/-- Claim C4, counterexample: when the first match alone exceeds the budget,
the text is empty as claimed, but the accumulator ends at the match's token
count 1501, not at 0. -/
theorem first_over_budget_tokenCount_ne_zero :
    (assemble (⟨('y' :: []), 1501⟩ :: []) 1500).2 = [] ∧
    (assemble (⟨('y' :: []), 1501⟩ :: []) 1500).1 ≠ 0 := by decide

/-- Claim C4 as amended: if the first match's token count alone exceeds the
budget, assembly yields the empty context text with the accumulator equal to
that first token count (not 0); and the orchestrator treats any assembled
context, the empty one included, as usable: it always proceeds to
generation with the prompt rendered from it. -/
theorem first_over_budget_empty_text :
    (∀ (d : MatchDoc) (rest : List MatchDoc) (B : Nat), B < d.token →
      assemble (d :: rest) B = (d.token, [])) ∧
    (∀ (st : UiState) (inp : TurnInputs), jsTrim inp.searchText ≠ [] →
      inp.embedStatus = 200 →
      (handleSearch st inp).generateCalled = true ∧
      (handleSearch st inp).promptSent =
        some (generatePrompt (assemble inp.documents 1500).2 inp.searchText)) := by
  constructor
  · intro d rest B h
    simp [assemble, assembleLoop, h]
  · intro st inp htrim hstatus
    have hne : inp.searchText ≠ [] := by
      intro hnil
      exact htrim (by simp [hnil, jsTrim])
    have hcond : inp.searchText ≠ [] ∧ jsTrim inp.searchText ≠ [] := ⟨hne, htrim⟩
    by_cases hchat : inp.chatStatus ≠ 200 <;>
      simp [handleSearch, hcond, hstatus, hchat]

/-- Witness for the amended claim C4 at concrete inputs. -/
theorem first_over_budget_empty_text_witness :
    assemble (⟨('y' :: []), 1501⟩ :: []) 1500 = (1501, []) ∧
    (handleSearch ⟨[], []⟩ ⟨('h' :: 'i' :: []), 200, [], 200, []⟩).generateCalled = true :=
  ⟨first_over_budget_empty_text.1 ⟨('y' :: []), 1501⟩ [] 1500 (by decide),
   (first_over_budget_empty_text.2 ⟨[], []⟩ ⟨('h' :: 'i' :: []), 200, [], 200, []⟩
      (by decide) rfl).1⟩

/-- Claim C5: assembly walks the matches in their given ranked order and the
included matches form a leading block of the list — the assembled text is
exactly the rendered segments of a block `included` with
`included ++ suffix = docs`, so no later match is ever included while an
earlier one is skipped. -/
theorem assemble_no_skip (docs : List MatchDoc) (B : Nat) :
    (∃ suffix, includedDocs B docs 0 ++ suffix = docs) ∧
    (assemble docs B).2 = segJoin (includedDocs B docs 0) := by
  refine ⟨includedDocs_leading B docs 0, ?_⟩
  have h := assembleLoop_snd B docs 0 []
  simpa [assemble] using h

/-- Claim C9: context assembly and prompt rendering are pure functions of
their stated inputs — the embedding gives them no other arguments (no
clock, randomness or ambient state), so equal inputs give equal outputs. -/
theorem pipeline_deterministic (docs₁ docs₂ : List MatchDoc) (B₁ B₂ : Nat)
    (c₁ c₂ q₁ q₂ : List Char)
    (hd : docs₁ = docs₂) (hB : B₁ = B₂) (hc : c₁ = c₂) (hq : q₁ = q₂) :
    assemble docs₁ B₁ = assemble docs₂ B₂ ∧
    generatePrompt c₁ q₁ = generatePrompt c₂ q₂ := by
  subst hd; subst hB; subst hc; subst hq
  exact ⟨rfl, rfl⟩

/-- Witness for claim C9 at concrete inputs. -/
theorem pipeline_deterministic_witness :
    assemble (⟨('a' :: []), 3⟩ :: []) 1500 = assemble (⟨('a' :: []), 3⟩ :: []) 1500 ∧
    generatePrompt ('c' :: []) ('q' :: []) = generatePrompt ('c' :: []) ('q' :: []) :=
  pipeline_deterministic (⟨('a' :: []), 3⟩ :: []) (⟨('a' :: []), 3⟩ :: []) 1500 1500
    ('c' :: []) ('c' :: []) ('q' :: []) ('q' :: []) rfl rfl rfl rfl

/-! Helper lemmas about the prompt template. -/

/-- Dropping a satisfying run from an append stays inside the left part when
something of the left part survives. -/
theorem dropWhile_append_left {α : Type} (p : α → Bool) :
    ∀ (l₁ l₂ : List α), l₁.dropWhile p ≠ [] →
      (l₁ ++ l₂).dropWhile p = l₁.dropWhile p ++ l₂ := by
  intro l₁
  induction l₁ with
  | nil => intro l₂ h; simp [List.dropWhile] at h
  | cons a t ih =>
    intro l₂ h
    by_cases hp : p a
    · simp only [List.cons_append, List.dropWhile_cons, hp, if_true, reduceIte] at h ⊢
      exact ih l₂ h
    · simp [List.dropWhile_cons, hp]

/-- A line starting with a non-whitespace character has indent zero. -/
theorem lineIndent_cons_of_not_ws (c : Char) (l : List Char) (h : isLineWs c = false) :
    lineIndent (c :: l) = some 0 := by
  simp [lineIndent, List.dropWhile_cons, List.takeWhile_cons, h]

/-- A leading line of indent zero pins the minimal indent to zero. -/
theorem minIndent_cons_of_zero (l : List Char) (ls : List (List Char))
    (h : lineIndent l = some 0) : minIndent (l :: ls) = some 0 := by
  unfold minIndent
  rw [h]
  cases hm : minIndent ls <;> simp

/-- A string whose first character is neither whitespace nor a line feed is
untouched by the strip-indent transformer: its first line already has
indent zero. -/
theorem stripIndentTransform_cons (c : Char) (l : List Char)
    (hws : isLineWs c = false) (hnl : c ≠ '\n') :
    stripIndentTransform (c :: l) = c :: l := by
  have hmin : minIndent (splitLines (c :: l)) = some 0 := by
    have hsplit : splitLines (c :: l) =
        match splitLines l with
        | [] => [[c]]
        | h :: t => (c :: h) :: t := by
      simp [splitLines, hnl]
    cases hsl : splitLines l with
    | nil =>
      rw [hsplit, hsl]
      exact minIndent_cons_of_zero [c] [] (lineIndent_cons_of_not_ws c [] hws)
    | cons hd tl =>
      rw [hsplit, hsl]
      exact minIndent_cons_of_zero (c :: hd) tl (lineIndent_cons_of_not_ws c hd hws)
  unfold stripIndentTransform
  rw [hmin]

set_option maxRecDepth 8192 in
/-- The persona preamble starts with the letter `Y`. -/
theorem preamble_eq_cons : preamble = 'Y' :: preamble.tail := by decide

/-- The raw template pulled apart at its leading character. -/
theorem promptRaw_cons (c q : List Char) :
    promptRaw c q =
      'Y' :: (preamble.tail ++ (ctxHeader ++ (c ++ (questionHeader ++ (q ++ promptTail))))) := by
  rw [promptRaw, preamble_eq_cons]
  simp [List.append_assoc]

/-- Closed form of `generatePrompt`: the preamble begins with a visible
character, so the minimal indent is zero and `stripIndent` only trims; the
trailing whitespace removed is the template's own, leaving the context and
question embedded verbatim. -/
theorem generatePrompt_eq (c q : List Char) :
    generatePrompt c q =
      preamble ++ ctxHeader ++ c ++ questionHeader ++ q ++ promptTailTrimmed := by
  unfold generatePrompt stripIndentTag
  rw [promptRaw_cons,
    stripIndentTransform_cons 'Y' _ (by decide) (by decide), ← promptRaw_cons]
  unfold jsTrim
  rw [promptRaw_cons, List.dropWhile_cons]
  have hY : isJsWs 'Y' = false := by decide
  rw [hY]
  simp only [Bool.false_eq_true, if_false, ← promptRaw_cons]
  have hPT : promptRaw c q =
      (preamble ++ ctxHeader ++ c ++ questionHeader ++ q) ++ promptTail := by
    simp [promptRaw, List.append_assoc]
  rw [hPT, List.reverse_append,
    dropWhile_append_left isJsWs promptTail.reverse _ (by decide)]
  have htail : promptTail.reverse.dropWhile isJsWs = promptTailTrimmed.reverse := by decide
  rw [htail, ← List.reverse_append, List.reverse_reverse]

/-- Claim C8: the rendered prompt contains the context verbatim, the
question verbatim, and starts with the non-empty persona preamble — for
every context and question, the empty strings included. -/
theorem prompt_contains_context_and_question (c q : List Char) :
    (∃ u v, generatePrompt c q = u ++ c ++ v) ∧
    (∃ u v, generatePrompt c q = u ++ q ++ v) ∧
    (∃ v, generatePrompt c q = preamble ++ v) ∧ preamble ≠ [] := by
  refine ⟨⟨preamble ++ ctxHeader, questionHeader ++ q ++ promptTailTrimmed, ?_⟩,
    ⟨preamble ++ ctxHeader ++ c ++ questionHeader, promptTailTrimmed, ?_⟩,
    ⟨ctxHeader ++ c ++ questionHeader ++ q ++ promptTailTrimmed, ?_⟩, by decide⟩ <;>
    simp [generatePrompt_eq, List.append_assoc]

/-! Claims about one turn of the orchestrator and about the `/embedding`
route. -/

/-- A string whose trim is non-empty is non-empty. -/
theorem ne_nil_of_jsTrim_ne_nil (s : List Char) (h : jsTrim s ≠ []) : s ≠ [] := by
  intro hnil
  exact h (by simp [hnil, jsTrim])

/-- Claim C2, counterexample: a turn whose generation call answers with
status 400 leaves the answers list empty while its question was appended,
so the history holds a question with no paired answer entry and no fallback
string was stored. -/
theorem generation_failure_drops_answer_entry :
    (handleSearch ⟨[], []⟩ ⟨('d' :: []), 200, [], 400, ('x' :: [])⟩).questions ≠ [] ∧
    (handleSearch ⟨[], []⟩ ⟨('d' :: []), 200, [], 400, ('x' :: [])⟩).answers = [] := by
  decide

/-- Claim C2 as amended: when the generation call fails, `generateAnswer`
only raises a toast notice — the answers list is left unchanged, no
fallback entry is appended, and the turn still terminates with the loading
flag cleared, so the visible history can contain a question without any
paired answer entry. -/
theorem generation_failure_toast_no_fallback (st : UiState) (inp : TurnInputs)
    (htrim : jsTrim inp.searchText ≠ []) (hembed : inp.embedStatus = 200)
    (hchat : inp.chatStatus ≠ 200) :
    (handleSearch st inp).answers = st.answers ∧
    (handleSearch st inp).questions = st.questions ++ [inp.searchText] ∧
    (handleSearch st inp).toasts = 1 ∧
    (handleSearch st inp).loading = false := by
  have hcond : inp.searchText ≠ [] ∧ jsTrim inp.searchText ≠ [] :=
    ⟨ne_nil_of_jsTrim_ne_nil inp.searchText htrim, htrim⟩
  simp [handleSearch, hcond, hembed, hchat]

/-- Witness for the amended claim C2 at concrete inputs. -/
theorem generation_failure_toast_no_fallback_witness :
    (handleSearch ⟨[], []⟩ ⟨('d' :: []), 200, [], 500, []⟩).answers = [] ∧
    (handleSearch ⟨[], []⟩ ⟨('d' :: []), 200, [], 500, []⟩).questions = [('d' :: [])] ∧
    (handleSearch ⟨[], []⟩ ⟨('d' :: []), 200, [], 500, []⟩).toasts = 1 ∧
    (handleSearch ⟨[], []⟩ ⟨('d' :: []), 200, [], 500, []⟩).loading = false :=
  generation_failure_toast_no_fallback ⟨[], []⟩ ⟨('d' :: []), 200, [], 500, []⟩
    (by decide) rfl (by decide)

/-- Claim C3, counterexample: with a user present, text `"hi"` and backends
that answer, the route returns a token count computed by `gemini-pro` and a
vector computed by `embedding-001` — two different models, not one. -/
theorem embedding_models_differ_example :
    embeddingPOST true (some ('h' :: 'i' :: [])) (fun _ t => some t.length)
        (fun _ _ => some ((1 : Int) :: [])) =
      EmbedOutcome.success 2 geminiProName ((1 : Int) :: []) embeddingModelName ∧
    geminiProName ≠ embeddingModelName := by
  decide

/-- Claim C3 as amended: every successful embed response carries a vector
and a token count produced by two fixed but different models of the same
backend — the token count by `gemini-pro`, the vector by `embedding-001`. -/
theorem embedding_uses_two_fixed_models (hasUser : Bool) (text : Option (List Char))
    (countTokens : List Char → List Char → Option Nat)
    (embedContent : List Char → List Char → Option (List Int))
    (tok : Nat) (tm : List Char) (vec : List Int) (em : List Char)
    (h : embeddingPOST hasUser text countTokens embedContent =
      EmbedOutcome.success tok tm vec em) :
    tm = geminiProName ∧ em = embeddingModelName ∧ tm ≠ em := by
  cases hasUser with
  | false => simp [embeddingPOST] at h
  | true =>
    cases text with
    | none => simp [embeddingPOST] at h
    | some t =>
      by_cases ht : t = []
      · simp [embeddingPOST, ht] at h
      · cases hct : countTokens geminiProName t with
        | none => simp [embeddingPOST, ht, hct] at h
        | some tokv =>
          cases hec : embedContent embeddingModelName t with
          | none => simp [embeddingPOST, ht, hct, hec] at h
          | some vecv =>
            simp [embeddingPOST, ht, hct, hec] at h
            obtain ⟨-, h2, -, h4⟩ := h
            refine ⟨h2.symm, h4.symm, ?_⟩
            rw [← h2, ← h4]
            decide

/-- Witness for the amended claim C3 at concrete inputs. -/
theorem embedding_uses_two_fixed_models_witness :
    geminiProName = geminiProName ∧ embeddingModelName = embeddingModelName ∧
    geminiProName ≠ embeddingModelName :=
  embedding_uses_two_fixed_models true (some ('h' :: [])) (fun _ _ => some 1)
    (fun _ _ => some []) 1 geminiProName [] embeddingModelName (by decide)

/-- Claim C6: an empty similarity result is no error — the turn assembles
the empty context, renders the prompt from it, invokes generation, and on
generation success ends with the paired answer appended and loading
cleared. -/
theorem empty_matches_reaches_generation (st : UiState) (inp : TurnInputs)
    (htrim : jsTrim inp.searchText ≠ []) (hembed : inp.embedStatus = 200)
    (hdocs : inp.documents = []) (hchat : inp.chatStatus = 200) :
    handleSearch st inp =
      { questions := st.questions ++ [inp.searchText],
        answers := st.answers ++ [inp.chatChoices],
        inputValue := [], loading := false, embedCalled := true,
        embedTextSent := some (replaceNewlines inp.searchText),
        searchCalled := true, generateCalled := true,
        promptSent := some (generatePrompt [] inp.searchText), toasts := 0 } := by
  have hcond : inp.searchText ≠ [] ∧ jsTrim inp.searchText ≠ [] :=
    ⟨ne_nil_of_jsTrim_ne_nil inp.searchText htrim, htrim⟩
  simp [handleSearch, hcond, hembed, hdocs, hchat, assemble, assembleLoop]

/-- Witness for claim C6 at concrete inputs. -/
theorem empty_matches_reaches_generation_witness :
    handleSearch ⟨[], []⟩ ⟨('h' :: 'i' :: []), 200, [], 200, ('a' :: [])⟩ =
      { questions := [('h' :: 'i' :: [])], answers := [('a' :: [])],
        inputValue := [], loading := false, embedCalled := true,
        embedTextSent := some (replaceNewlines ('h' :: 'i' :: [])),
        searchCalled := true, generateCalled := true,
        promptSent := some (generatePrompt [] ('h' :: 'i' :: [])), toasts := 0 } :=
  empty_matches_reaches_generation ⟨[], []⟩ ⟨('h' :: 'i' :: []), 200, [], 200, ('a' :: [])⟩
    (by decide) rfl rfl rfl

/-- Claim C7: a failed embedding response halts the turn — no similarity
search, no assembly result, no generation call, no prompt sent; a single
toast notice is surfaced and the answers list is untouched. -/
theorem embedding_failure_halts_turn (st : UiState) (inp : TurnInputs)
    (htrim : jsTrim inp.searchText ≠ []) (hembed : inp.embedStatus ≠ 200) :
    handleSearch st inp =
      { questions := st.questions ++ [inp.searchText], answers := st.answers,
        inputValue := [], loading := false, embedCalled := true,
        embedTextSent := some (replaceNewlines inp.searchText),
        searchCalled := false, generateCalled := false,
        promptSent := none, toasts := 1 } := by
  have hcond : inp.searchText ≠ [] ∧ jsTrim inp.searchText ≠ [] :=
    ⟨ne_nil_of_jsTrim_ne_nil inp.searchText htrim, htrim⟩
  simp [handleSearch, hcond, hembed]

/-- Witness for claim C7 at concrete inputs. -/
theorem embedding_failure_halts_turn_witness :
    handleSearch ⟨[], []⟩ ⟨('h' :: []), 500, [], 200, []⟩ =
      { questions := [('h' :: [])], answers := [],
        inputValue := [], loading := false, embedCalled := true,
        embedTextSent := some (replaceNewlines ('h' :: [])),
        searchCalled := false, generateCalled := false,
        promptSent := none, toasts := 1 } :=
  embedding_failure_halts_turn ⟨[], []⟩ ⟨('h' :: []), 500, [], 200, []⟩
    (by decide) (by decide)

/-- Claim C10: submitting blank text (empty or whitespace only) performs no
embedding, search or generation call and leaves questions and answers
unchanged; the only effects are the cleared input field and the loading
flag ending false. -/
theorem blank_input_noop (st : UiState) (inp : TurnInputs)
    (h : jsTrim inp.searchText = []) :
    handleSearch st inp =
      { questions := st.questions, answers := st.answers, inputValue := [],
        loading := false, embedCalled := false, embedTextSent := none,
        searchCalled := false, generateCalled := false,
        promptSent := none, toasts := 0 } := by
  simp [handleSearch, h]

/-- Witness for claim C10 on a whitespace-only submission. -/
theorem blank_input_noop_witness :
    handleSearch ⟨[('q' :: [])], [('a' :: [])]⟩ ⟨(' ' :: '\t' :: []), 200, [], 200, []⟩ =
      { questions := [('q' :: [])], answers := [('a' :: [])], inputValue := [],
        loading := false, embedCalled := false, embedTextSent := none,
        searchCalled := false, generateCalled := false,
        promptSent := none, toasts := 0 } :=
  blank_input_noop ⟨[('q' :: [])], [('a' :: [])]⟩ ⟨(' ' :: '\t' :: []), 200, [], 200, []⟩
    (by decide)

end DreamAi
